import Mathlib

/-!
Shallow embedding of the form-field classification and fill/submit decision
engine of the `cursor-job-apply` repository
(`src/external_form_mapper.py` and `src/linkedin_application_handler.py`).

Python strings become `String`; `element.get_attribute(...)` results become
`Option String` (Python `None` is `none`); Python truthiness of such a value
is `attrTruthy`; `a or b` on attribute values is `pyOrS`; substring tests
(`x in y`) are `containsSub`.  DOM calls that can raise
(`send_keys`, `click`, `clear`, reading `current_url` / `page_source`,
`find_elements`) are modelled as `Except DomError _` values carried by the
element / driver state; a `try/except` in the source becomes a `match` on
those values.
-/

/-- An environment (DOM / Selenium) error; carries only a message. -/
structure DomError where
  msg : String
deriving Repr, DecidableEq

/-- Character-list substring scan: does `pat` occur contiguously in the list? -/
def containsSubChars (pat : List Char) : List Char → Bool
  | [] => pat.isEmpty
  | c :: rest => pat.isPrefixOf (c :: rest) || containsSubChars pat rest

/-- Substring test: `containsSub s pat` is Python's `pat in s`. -/
def containsSub (s pat : String) : Bool :=
  containsSubChars pat.toList s.toList

/-- Python's `str.lower()`, written character-wise so that it evaluates
inside the kernel. -/
def String.pyLower (s : String) : String :=
  String.mk (s.toList.map Char.toLower)

/-- Python truthiness of an optional attribute string: `None` and `""` are falsy. -/
def attrTruthy : Option String → Bool
  | none => false
  | some s => !s.isEmpty

/-- Python `a or b` on two optional attribute strings: `a` when truthy, else `b`. -/
def pyOrS (a b : Option String) : Option String :=
  if attrTruthy a then a else b

/-- Python `x or ""` collapsing a possibly-falsy attribute value to a string. -/
def pyStr : Option String → String
  | none => ""
  | some s => s

/-- A live form control: cached attribute map plus the outcomes of the
effectful calls the source may make on it (`send_keys`, `click`, `clear`)
and, for `<select>` elements, the option texts. -/
structure Element where
  displayed : Bool
  enabled : Bool
  attr : String → Option String
  sendKeys : Except DomError Unit
  click : Except DomError Unit
  clear : Except DomError Unit
  options : List String

/-- The browser session as seen by the component: each read the source
performs is a value that is either a result or a raised `DomError`.
`findElement` models Selenium `find_element`, whose
`NoSuchElementException` the source always catches, so it is an `Option`. -/
structure Driver where
  current_url : Except DomError String
  page_source : Except DomError String
  formElems : Except DomError (List Element)
  inputElems : Except DomError (List Element)
  textareaElems : Except DomError (List Element)
  selectElems : Except DomError (List Element)
  findElements : String → Except DomError (List Element)
  findElement : String → Option Element

/-- A driver for a plain readable page: no call raises. -/
def pageDriver (url src : String) (forms inputs : List Element) : Driver where
  current_url := Except.ok url
  page_source := Except.ok src
  formElems := Except.ok forms
  inputElems := Except.ok inputs
  textareaElems := Except.ok []
  selectElems := Except.ok []
  findElements := fun _ => Except.ok []
  findElement := fun _ => none

/-! ## Vendor detection (`detect_application_system`, `detect_form_patterns`) -/

/-- The keyword set of `detect_form_patterns` (`form_indicators`). -/
def form_indicators : List String :=
  ["form", "application", "apply", "submit", "upload", "resume", "cover letter"]

/-- Pure core of `detect_form_patterns`: keyword count over the lower-cased
page source, number of `<form>` elements, number of `<input>` elements. -/
def detect_form_patterns_core (page_source : String)
    (forms inputs : List Element) : Bool :=
  let page_text := page_source.pyLower
  let form_count := (form_indicators.filter (fun ind => containsSub page_text ind)).length
  decide (form_count ≥ 3) || decide (forms.length > 0) || decide (inputs.length > 5)

/-- `detect_form_patterns`: reads the page source and the form/input element
lists; any raised error is caught and yields `false`. -/
def detect_form_patterns (d : Driver) : Bool :=
  match d.page_source, d.formElems, d.inputElems with
  | Except.ok src, Except.ok fs, Except.ok ins => detect_form_patterns_core src fs ins
  | _, _, _ => false

/-- `detect_application_system`: URL scan, then page-source scan, then the
form-pattern heuristic; a raised error on the initial reads degrades to
`"unknown"`. -/
def detect_application_system (d : Driver) : String :=
  match d.current_url, d.page_source with
  | Except.ok current_url, Except.ok page_source =>
      let url := current_url.pyLower
      let src := page_source.pyLower
      if containsSub url "workday" then "workday"
      else if containsSub url "lever" then "lever"
      else if containsSub url "greenhouse" then "greenhouse"
      else if containsSub url "bamboo" then "bamboo"
      else if containsSub src "workday" then "workday"
      else if containsSub src "lever" then "lever"
      else if containsSub src "greenhouse" then "greenhouse"
      else if containsSub src "bamboo" then "bamboo"
      else if detect_form_patterns d then "generic"
      else "unknown"
  | _, _ => "unknown"

/-! ## Outcome classification (`check_submission_success`) -/

/-- The success-phrase set of `check_submission_success`. -/
def success_indicators : List String :=
  ["thank you", "application submitted", "application received",
   "successfully applied", "application complete", "confirmation"]

/-- The error-phrase set of `check_submission_success`. -/
def error_indicators : List String :=
  ["error occurred", "application failed", "please try again",
   "something went wrong", "validation error"]

/-- Pure core of `check_submission_success` on a readable page source:
success phrases first, then error phrases, else the optimistic default. -/
def check_submission_success_text (page_source : String) : Bool :=
  let page_text := page_source.pyLower
  if success_indicators.any (fun ind => containsSub page_text ind) then true
  else if error_indicators.any (fun ind => containsSub page_text ind) then false
  else true

/-- `check_submission_success`: reads the post-submit page source; a raised
error is caught and yields `false`. -/
def check_submission_success (d : Driver) : Bool :=
  match d.page_source with
  | Except.ok src => check_submission_success_text src
  | Except.error _ => false

/-! ## Field classifier (`should_fill_additional_field`, external mapper) -/

/-- The relevant declared input types of both classifiers. -/
def relevant_types : List String := ["text", "email", "tel", "number", "url"]

/-- The name/placeholder keyword set of `should_fill_additional_field`. -/
def relevant_names : List String :=
  ["experience", "years", "skills", "education", "location", "salary", "availability"]

/-- `should_fill_additional_field` (external mapper): visibility, existing
value, required flag, declared type, then name/placeholder keywords. -/
def should_fill_additional_field (f : Element) : Bool :=
  if !f.displayed || !f.enabled then false
  else if attrTruthy (f.attr "value") then false
  else if attrTruthy (pyOrS (f.attr "required") (f.attr "aria-required")) then true
  else
    let field_type := f.attr "type"
    let field_name := pyStr (pyOrS (f.attr "name") (f.attr "id"))
    let field_placeholder := pyStr (f.attr "placeholder")
    if field_type.any (fun t => relevant_types.contains t) then true
    else if relevant_names.any (fun n => containsSub field_name.pyLower n) then true
    else if relevant_names.any (fun n => containsSub field_placeholder.pyLower n) then true
    else false

/-- The name keyword set of the LinkedIn handler's `should_fill_field`. -/
def li_relevant_names : List String :=
  ["name", "email", "phone", "experience", "years", "skills"]

/-- `should_fill_field` (LinkedIn handler): same gate order, but no
placeholder check and a different keyword set. -/
def should_fill_field (f : Element) : Bool :=
  if !f.displayed || !f.enabled then false
  else if attrTruthy (f.attr "value") then false
  else if attrTruthy (pyOrS (f.attr "required") (f.attr "aria-required")) then true
  else
    let field_type := f.attr "type"
    let field_name := pyStr (pyOrS (f.attr "name") (f.attr "id"))
    if field_type.any (fun t => relevant_types.contains t) then true
    else if li_relevant_names.any (fun n => containsSub field_name.pyLower n) then true
    else false

/-! ## Value resolver (`get_additional_field_value`, `fill_select_field`) -/

/-- `get_additional_field_value`: ordered keyword rules over the lower-cased
`name + " " + placeholder` text, then type-based defaults. -/
def get_additional_field_value (field_type : Option String)
    (field_name field_placeholder : String) : Option String :=
  let field_text := (field_name ++ " " ++ field_placeholder).pyLower
  if ["experience", "years"].any (fun w => containsSub field_text w) then
    some "5"
  else if ["skills", "technologies"].any (fun w => containsSub field_text w) then
    some "Python, SQL, Data Engineering, AWS, Apache Spark"
  else if ["education", "degree"].any (fun w => containsSub field_text w) then
    some "Bachelor\x27s Degree in Computer Science"
  else if ["location", "city"].any (fun w => containsSub field_text w) then
    some "Singapore"
  else if ["salary", "compensation"].any (fun w => containsSub field_text w) then
    some "Negotiable"
  else if ["availability", "start date"].any (fun w => containsSub field_text w) then
    some "Immediate"
  else if ["portfolio", "github", "website"].any (fun w => containsSub field_text w) then
    some "https://github.com/username"
  else if field_type == some "text" then some "See resume for details"
  else if field_type == some "number" then some "5"
  else if field_type == some "email" then some "john.doe@example.com"
  else none

/-- The option keyword set of `fill_select_field`. -/
def select_keywords : List String := ["yes", "available", "immediate", "bachelor", "5+"]

/-- Choice logic of `fill_select_field`: which option text gets selected
(`none` = the function returns `False` without selecting). The keyword scan
and the index-1 fallback are both inside the `len(options) > 1` guard, as in
the source. -/
def fill_select_field_choice (options : List String) : Option String :=
  if options.length > 1 then
    match options.find? (fun o =>
        select_keywords.any (fun w => containsSub o.pyLower w)) with
    | some o => some o
    | none => if options.length > 1 then options[1]? else none
  else none

/-- `fill_select_field`: succeeds exactly when an option gets selected. -/
def fill_select_field (f : Element) : Bool :=
  (fill_select_field_choice f.options).isSome

/-! ## Vendor signature table and field mapping (`load_form_patterns`,
`map_form_fields`, `find_fields_by_selectors`) -/

/-- One vendor signature: display name plus the field-kind → selector lists. -/
structure FormPattern where
  vendorName : String
  selectors : List (String × List String)

/-- `load_form_patterns`: the static vendor signature table, selector strings
verbatim from the source. -/
def load_form_patterns : List (String × FormPattern) :=
  [("workday",
    { vendorName := "Workday",
      selectors :=
        [("name_fields", ["input[name*=\"name\"]", "input[id*=\"name\"]"]),
         ("email_fields", ["input[type=\"email\"]", "input[name*=\"email\"]"]),
         ("phone_fields", ["input[type=\"tel\"]", "input[name*=\"phone\"]"]),
         ("resume_upload", ["input[type=\"file\"]", "input[accept*=\".pdf\"]"]),
         ("submit_button", ["button[type=\"submit\"]", "input[type=\"submit\"]"])] }),
   ("lever",
    { vendorName := "Lever",
      selectors :=
        [("name_fields", ["input[name=\"name\"]", "input[name=\"full_name\"]"]),
         ("email_fields", ["input[name=\"email\"]", "input[type=\"email\"]"]),
         ("phone_fields", ["input[name=\"phone\"]", "input[type=\"tel\"]"]),
         ("resume_upload", ["input[type=\"file\"]", "input[accept*=\".pdf\"]"]),
         ("submit_button", ["button[type=\"submit\"]", "input[type=\"submit\"]"])] }),
   ("greenhouse",
    { vendorName := "Greenhouse",
      selectors :=
        [("name_fields", ["input[name=\"name\"]", "input[name=\"full_name\"]"]),
         ("email_fields", ["input[name=\"email\"]", "input[type=\"email\"]"]),
         ("phone_fields", ["input[name=\"phone\"]", "input[type=\"tel\"]"]),
         ("resume_upload", ["input[type=\"file\"]", "input[accept*=\".pdf\"]"]),
         ("submit_button", ["button[type=\"submit\"]", "input[type=\"submit\"]"])] }),
   ("bamboo",
    { vendorName := "BambooHR",
      selectors :=
        [("name_fields", ["input[name=\"name\"]", "input[name=\"full_name\"]"]),
         ("email_fields", ["input[name=\"email\"]", "input[type=\"email\"]"]),
         ("phone_fields", ["input[name=\"phone\"]", "input[type=\"tel\"]"]),
         ("resume_upload", ["input[type=\"file\"]", "input[accept*=\".pdf\"]"]),
         ("submit_button", ["button[type=\"submit\"]", "input[type=\"submit\"]"])] }),
   ("generic",
    { vendorName := "Generic Form",
      selectors :=
        [("name_fields",
          ["input[name*=\"name\"]", "input[id*=\"name\"]", "input[placeholder*=\"name\"]"]),
         ("email_fields",
          ["input[type=\"email\"]", "input[name*=\"email\"]", "input[placeholder*=\"email\"]"]),
         ("phone_fields",
          ["input[type=\"tel\"]", "input[name*=\"phone\"]", "input[placeholder*=\"phone\"]"]),
         ("resume_upload",
          ["input[type=\"file\"]", "input[accept*=\".pdf\"]", "input[accept*=\".doc\"]"]),
         ("submit_button",
          ["button[type=\"submit\"]", "input[type=\"submit\"]",
           "button:contains(\"Submit\")"])] })]

/-- `find_fields_by_selectors`: query each selector, keep visible and enabled
matches, accumulate; a selector whose query raises is skipped. -/
def find_fields_by_selectors (d : Driver) : List String → List Element
  | [] => []
  | selector :: rest =>
      (match d.findElements selector with
       | Except.ok elements => elements.filter (fun e => e.displayed && e.enabled)
       | Except.error _ => []) ++ find_fields_by_selectors d rest

/-- `map_form_fields`: an unknown system tag is replaced by `"generic"`,
then every field kind of that signature is located. -/
def map_form_fields (system_type : String) (d : Driver) : List (String × List Element) :=
  let st :=
    if (load_form_patterns.find? (fun p => p.1 == system_type)).isSome
    then system_type else "generic"
  match load_form_patterns.find? (fun p => p.1 == st) with
  | some p => p.2.selectors.map (fun fs => (fs.1, find_fields_by_selectors d fs.2))
  | none => []

/-! ## Form fill and submission (external mapper) -/

/-- Python `mapped_fields.get(key, [])`. -/
def dictGet (m : List (String × List Element)) (k : String) : List Element :=
  match m.find? (fun kv => kv.1 == k) with
  | some kv => kv.2
  | none => []

/-- Python `profile_data.get(key, default)` over a string-valued profile. -/
def profGet (profile_data : List (String × String)) (k dflt : String) : String :=
  match profile_data.find? (fun kv => kv.1 == k) with
  | some kv => kv.2
  | none => dflt

/-- `get_field_value`: canonical-field values with literal fallbacks. -/
def get_field_value (field_type : String) (profile_data : List (String × String)) :
    Option String :=
  if field_type == "name" then some (profGet profile_data "name" "John Doe")
  else if field_type == "email" then some (profGet profile_data "email" "john.doe@example.com")
  else if field_type == "phone" then some (profGet profile_data "phone" "+65 9123 4567")
  else if field_type == "experience" then some (profGet profile_data "years_experience" "5")
  else if field_type == "location" then some (profGet profile_data "location" "Singapore")
  else none

/-- `handle_resume_upload` (external mapper): no candidate fails; otherwise
the artifact is sent to the first candidate, and a raised `send_keys` error
is caught and yields `false`. -/
def handle_resume_upload (resume_fields : List Element) : Bool :=
  match resume_fields with
  | [] => false
  | f :: _ =>
      match f.sendKeys with
      | Except.ok _ => true
      | Except.error _ => false

/-- `fill_additional_field`: resolve a value; if one exists, clear and type
(either call raising yields `false`), else `false`. -/
def fill_additional_field (f : Element) : Bool :=
  match get_additional_field_value (f.attr "type")
      (pyStr (pyOrS (f.attr "name") (f.attr "id"))) (pyStr (f.attr "placeholder")) with
  | some _ =>
      match f.clear, f.sendKeys with
      | Except.ok _, Except.ok _ => true
      | _, _ => false
  | none => false

/-- `fill_additional_questions`: classify and fill every page `<input>`,
`<textarea>` and `<select>`; a raised error on the element reads yields 0. -/
def fill_additional_questions (d : Driver) : Nat :=
  match d.inputElems, d.textareaElems, d.selectElems with
  | Except.ok all_inputs, Except.ok all_textareas, Except.ok all_selects =>
      all_inputs.countP (fun f => should_fill_additional_field f && fill_additional_field f)
      + all_textareas.countP (fun f => should_fill_additional_field f && fill_additional_field f)
      + all_selects.countP (fun f => should_fill_additional_field f && fill_select_field f)
  | _, _, _ => 0

/-- The cover-letter selector list of `add_cover_letter` (external mapper). -/
def cover_letter_selectors : List String :=
  ["textarea[name*=\"cover\"]", "textarea[name*=\"letter\"]",
   "textarea[placeholder*=\"cover\"]", "textarea[placeholder*=\"letter\"]",
   "textarea[name*=\"message\"]", "textarea[name*=\"additional\"]"]

/-- Loop body of `add_cover_letter`: a not-found selector is skipped; a
found, interactable field is cleared and typed into (a raised clear/type
error aborts the whole call with `false`). -/
def add_cover_letter_loop (d : Driver) : List String → Bool
  | [] => false
  | selector :: rest =>
      match d.findElement selector with
      | some f =>
          if f.displayed && f.enabled then
            match f.clear, f.sendKeys with
            | Except.ok _, Except.ok _ => true
            | _, _ => false
          else add_cover_letter_loop d rest
      | none => add_cover_letter_loop d rest

/-- `add_cover_letter` (external mapper). -/
def add_cover_letter (d : Driver) : Bool :=
  add_cover_letter_loop d cover_letter_selectors

/-- `submit_form`: click the first enabled candidate, then classify the
outcome; a raised enabled/click error skips to the next candidate. -/
def submit_form (submit_fields : List Element) (d : Driver) : Bool :=
  match submit_fields with
  | [] => false
  | f :: rest =>
      if f.enabled then
        match f.click with
        | Except.ok _ => check_submission_success d
        | Except.error _ => submit_form rest d
      else submit_form rest d

/-- `fill_basic_fields`: for each of the name/email/phone kinds, type the
profile value into the first not-yet-valued candidate; returns the values
typed (the source returns nothing, this is its observable page effect). -/
def fill_basic_fields (mapped_fields : List (String × List Element))
    (profile_data : List (String × String)) : List (String × String) :=
  (["name_fields", "email_fields", "phone_fields"].zip ["name", "email", "phone"]).filterMap
    (fun ks =>
      match (dictGet mapped_fields ks.1).find? (fun f => !attrTruthy (f.attr "value")) with
      | some _ =>
          match get_field_value ks.2 profile_data with
          | some v => some (ks.2, v)
          | none => none
      | none => none)

/-- The result of one form-fill attempt (the spec's `FormFillOutcome`):
`submitted` records whether the submission step was invoked at all,
`result` is the boolean the source function returns. -/
structure FillOutcome where
  resumeUploaded : Bool
  questionsFilled : Nat
  coverLetterAdded : Bool
  submitted : Bool
  result : Bool
deriving Repr, DecidableEq

/-- `fill_application_form`: basic fields, resume upload, additional
questions, cover letter, then the upload-gated submission. -/
def fill_application_form (d : Driver) (mapped_fields : List (String × List Element))
    (profile_data : List (String × String)) : FillOutcome :=
  let _basic := fill_basic_fields mapped_fields profile_data
  let resume_uploaded := handle_resume_upload (dictGet mapped_fields "resume_upload")
  let questions_filled := fill_additional_questions d
  let cover_letter_added := add_cover_letter d
  if resume_uploaded then
    { resumeUploaded := true, questionsFilled := questions_filled,
      coverLetterAdded := cover_letter_added, submitted := true,
      result := submit_form (dictGet mapped_fields "submit_button") d }
  else
    { resumeUploaded := false, questionsFilled := questions_filled,
      coverLetterAdded := cover_letter_added, submitted := false, result := false }

/-! ## LinkedIn Easy Apply handler (`linkedin_application_handler.py`) -/

/-- The file-upload selector list of the LinkedIn `handle_resume_upload`. -/
def file_input_selectors : List String :=
  ["input[type=\x27file\x27]", "input[accept*=\x27.pdf\x27]", "input[accept*=\x27.doc\x27]",
   "input[accept*=\x27.docx\x27]", "[data-test-id=\x27resume-upload-input\x27]"]

/-- First selector hit of a `find_element` loop that skips not-found errors. -/
def findFirstElement (d : Driver) : List String → Option Element
  | [] => none
  | selector :: rest =>
      match d.findElement selector with
      | some f => some f
      | none => findFirstElement d rest

/-- `handle_resume_upload` (LinkedIn): locate an upload input, create the
temporary resume file (`temp_file = none` models `create_temp_resume_file`
failing), send the path; a raised `send_keys` error yields `false`. -/
def li_handle_resume_upload (d : Driver) (temp_file : Option String) : Bool :=
  match findFirstElement d file_input_selectors with
  | none => false
  | some file_input =>
      match temp_file with
      | none => false
      | some _ =>
          match file_input.sendKeys with
          | Except.ok _ => true
          | Except.error _ => false

/-- `get_field_value` (LinkedIn): keyword rules over the lower-cased name,
then type-based defaults. -/
def li_get_field_value (field_type : Option String) (field_name : String) :
    Option String :=
  if containsSub field_name "name" then some "John Doe"
  else if containsSub field_name "email" then some "john.doe@example.com"
  else if containsSub field_name "phone" || containsSub field_name "tel" then
    some "+65 9123 4567"
  else if containsSub field_name "experience" || containsSub field_name "years" then
    some "5"
  else if containsSub field_name "skills" then some "Python, SQL, Data Engineering"
  else if containsSub field_name "education" then some "Bachelor\x27s Degree"
  else if containsSub field_name "location" then some "Singapore"
  else if field_type == some "text" then some "See resume for details"
  else if field_type == some "number" then some "5"
  else if field_type == some "email" then some "john.doe@example.com"
  else none

/-- `fill_field_appropriately` (LinkedIn). -/
def li_fill_field_appropriately (f : Element) : Bool :=
  match li_get_field_value (f.attr "type")
      (pyStr (pyOrS (f.attr "name") (f.attr "id"))).pyLower with
  | some _ =>
      match f.clear, f.sendKeys with
      | Except.ok _, Except.ok _ => true
      | _, _ => false
  | none => false

/-- The question selector list of `fill_easy_apply_questions`. -/
def question_selectors : List String :=
  ["input[type=\x27text\x27]", "textarea", "select", "input[type=\x27number\x27]",
   "input[type=\x27email\x27]", "input[type=\x27tel\x27]"]

/-- `fill_easy_apply_questions`: per selector, count the classified-and-filled
fields (a raised `find_elements` error skips the selector); returns whether
anything was filled. -/
def fill_easy_apply_questions (d : Driver) : Bool :=
  let questions_filled :=
    question_selectors.foldl
      (fun acc selector =>
        match d.findElements selector with
        | Except.ok fields =>
            acc + fields.countP (fun f => should_fill_field f && li_fill_field_appropriately f)
        | Except.error _ => acc)
      0
  decide (questions_filled > 0)

/-- The cover-letter selector list of `add_cover_letter_to_easy_apply`. -/
def li_cover_letter_selectors : List String :=
  ["textarea[name*=\x27cover\x27]", "textarea[name*=\x27letter\x27]",
   "textarea[placeholder*=\x27cover\x27]", "textarea[placeholder*=\x27letter\x27]",
   "[data-test-id=\x27cover-letter-input\x27]"]

/-- `add_cover_letter_to_easy_apply` (same loop shape as `add_cover_letter`). -/
def add_cover_letter_to_easy_apply (d : Driver) : Bool :=
  add_cover_letter_loop d li_cover_letter_selectors

/-- The success-phrase set of the LinkedIn `check_application_success`
(the source lowercases each indicator before the scan). -/
def li_success_indicators : List String :=
  ["Application submitted", "Thank you for your application",
   "Application received", "Successfully applied", "Application complete"]

/-- The error-phrase set of the LinkedIn `check_application_success`. -/
def li_error_indicators : List String :=
  ["error occurred", "application failed", "please try again", "something went wrong"]

/-- `check_application_success` (LinkedIn): success phrases first, then error
phrases, else the optimistic default; a raised page read yields `false`. -/
def check_application_success (d : Driver) : Bool :=
  match d.page_source with
  | Except.error _ => false
  | Except.ok src =>
      let page_text := src.pyLower
      if li_success_indicators.any (fun ind => containsSub page_text ind.pyLower) then true
      else if li_error_indicators.any (fun ind => containsSub page_text ind.pyLower) then false
      else true

/-- The submit selector list of `submit_easy_apply`. -/
def li_submit_selectors : List String :=
  ["button[data-control-name=\x27submit_unify\x27]",
   "button[aria-label=\x27Submit application\x27]", "button[type=\x27submit\x27]",
   ".jobs-easy-apply-content button:last-child"]

/-- `submit_easy_apply`: first found, enabled candidate is clicked and the
outcome classified; a not-found selector is skipped, a raised click error
aborts with `false`. -/
def submit_easy_apply_loop (d : Driver) : List String → Bool
  | [] => false
  | selector :: rest =>
      match d.findElement selector with
      | none => submit_easy_apply_loop d rest
      | some submit_button =>
          if submit_button.enabled then
            match submit_button.click with
            | Except.ok _ => check_application_success d
            | Except.error _ => false
          else submit_easy_apply_loop d rest

/-- `submit_easy_apply` (LinkedIn). -/
def submit_easy_apply (d : Driver) : Bool :=
  submit_easy_apply_loop d li_submit_selectors

/-- `handle_linkedin_easy_apply`: wait for the Easy Apply form (a timeout is
caught and fails the whole attempt), upload, questions, cover letter, then
the upload-gated submission. -/
def handle_linkedin_easy_apply (d : Driver) (temp_file : Option String) : FillOutcome :=
  match d.findElement ".jobs-easy-apply-content" with
  | none =>
      { resumeUploaded := false, questionsFilled := 0, coverLetterAdded := false,
        submitted := false, result := false }
  | some _ =>
      let resume_uploaded := li_handle_resume_upload d temp_file
      let questions_filled := fill_easy_apply_questions d
      let cover_letter_added := add_cover_letter_to_easy_apply d
      if resume_uploaded then
        { resumeUploaded := true, questionsFilled := if questions_filled then 1 else 0,
          coverLetterAdded := cover_letter_added, submitted := true,
          result := submit_easy_apply d }
      else
        { resumeUploaded := false, questionsFilled := if questions_filled then 1 else 0,
          coverLetterAdded := cover_letter_added, submitted := false, result := false }

/-! ## Auxiliary concrete states and claim-side reference definitions -/

/-- A blank, interactable `<input>` with no attributes. -/
def blankInput : Element where
  displayed := true
  enabled := true
  attr := fun _ => none
  sendKeys := Except.ok ()
  click := Except.ok ()
  clear := Except.ok ()
  options := []

/-- A driver on which every environment call raises. -/
def errorDriver : Driver where
  current_url := Except.error ⟨"boom"⟩
  page_source := Except.error ⟨"boom"⟩
  formElems := Except.error ⟨"boom"⟩
  inputElems := Except.error ⟨"boom"⟩
  textareaElems := Except.error ⟨"boom"⟩
  selectElems := Except.error ⟨"boom"⟩
  findElements := fun _ => Except.error ⟨"boom"⟩
  findElement := fun _ => none

/-- The vendor substrings the detector actually scans for, in priority
order; the BambooHR entry is the substring `"bamboo"`. -/
def vendor_url_keys : List String := ["workday", "lever", "greenhouse", "bamboo"]

/-- Modelled from the claimed detection algorithm: the vendor names in the
stated priority order, with the BambooHR vendor named `"bamboohr"`. -/
def claimed_vendor_names : List String := ["workday", "lever", "greenhouse", "bamboohr"]

/-- Detection as a first-match scan over a list of vendor substrings: URL
first, then markup, then the form-pattern heuristic. -/
def detect_by_vendor_names (names : List String) (url markup : String)
    (looksLikeForm : Bool) : String :=
  match names.find? (fun v => containsSub url.pyLower v) with
  | some v => v
  | none =>
      match names.find? (fun v => containsSub markup.pyLower v) with
      | some v => v
      | none => if looksLikeForm then "generic" else "unknown"

/-! ## Theorems -/

/-- Python truthiness of `a or b` is the disjunction of the truthiness. -/
lemma attrTruthy_pyOrS (a b : Option String) :
    attrTruthy (pyOrS a b) = (attrTruthy a || attrTruthy b) := by
  unfold pyOrS
  cases h : attrTruthy a <;> simp [h]

/-- C1: for every form-fill attempt (external mapper and LinkedIn Easy Apply
alike), if the resume upload step does not succeed then the fill operation
returns failure and the submission step is never invoked:
`resumeUploaded = false` implies `submitted = false` (and a `false` result)
for every combination of driver state, mapped fields, profile and inputs. -/
theorem upload_gate (d : Driver) (mapped_fields : List (String × List Element))
    (profile_data : List (String × String)) (temp_file : Option String) :
    ((fill_application_form d mapped_fields profile_data).resumeUploaded = false →
      (fill_application_form d mapped_fields profile_data).submitted = false ∧
      (fill_application_form d mapped_fields profile_data).result = false) ∧
    ((handle_linkedin_easy_apply d temp_file).resumeUploaded = false →
      (handle_linkedin_easy_apply d temp_file).submitted = false ∧
      (handle_linkedin_easy_apply d temp_file).result = false) := by
  constructor
  · intro h
    unfold fill_application_form at h ⊢
    cases hru : handle_resume_upload (dictGet mapped_fields "resume_upload") <;>
      simp [hru] at h ⊢
  · intro h
    unfold handle_linkedin_easy_apply at h ⊢
    cases hfe : d.findElement ".jobs-easy-apply-content" <;> simp [hfe] at h ⊢
    cases hru : li_handle_resume_upload d temp_file <;> simp [hru] at h ⊢

/-- C1 witness: on a page with no resume-upload control, the upload fails and
the form is not submitted. -/
theorem upload_gate_witness :
    (fill_application_form (pageDriver "" "" [] []) [] []).resumeUploaded = false ∧
    (fill_application_form (pageDriver "" "" [] []) [] []).submitted = false ∧
    (fill_application_form (pageDriver "" "" [] []) [] []).result = false := by
  have h := (upload_gate (pageDriver "" "" [] []) [] [] none).1 (by decide)
  exact ⟨by decide, h.1, h.2⟩

/-- C2: outcome classification of a readable post-submit page: a success
phrase forces success, otherwise an error phrase forces failure, otherwise
the optimistic default yields success. -/
theorem check_submission_success_text_classification (page : String) :
    (success_indicators.any (fun ind => containsSub page.pyLower ind) = true →
      check_submission_success_text page = true) ∧
    (success_indicators.any (fun ind => containsSub page.pyLower ind) = false →
      error_indicators.any (fun ind => containsSub page.pyLower ind) = true →
      check_submission_success_text page = false) ∧
    (success_indicators.any (fun ind => containsSub page.pyLower ind) = false →
      error_indicators.any (fun ind => containsSub page.pyLower ind) = false →
      check_submission_success_text page = true) := by
  refine ⟨fun hs => ?_, fun hs he => ?_, fun hs he => ?_⟩
  · simp [check_submission_success_text, hs]
  · simp [check_submission_success_text, hs, he]
  · simp [check_submission_success_text, hs, he]

/-- C2 witness: one page per classification branch. -/
theorem check_submission_success_text_classification_witness :
    check_submission_success_text "Thank you for applying!" = true ∧
    check_submission_success_text "Sadly a validation error occurred here" = false ∧
    check_submission_success_text "just some page" = true :=
  ⟨(check_submission_success_text_classification "Thank you for applying!").1 (by decide),
   (check_submission_success_text_classification "Sadly a validation error occurred here").2.1
     (by decide) (by decide),
   (check_submission_success_text_classification "just some page").2.2 (by decide) (by decide)⟩

/-- C3 counterexample: a single-option dropdown whose only option text
contains the keyword `"yes"` is NOT selected — `fill_select_field` returns
failure without selecting anything, because in the source the keyword scan
sits inside the `len(options) > 1` guard. The claim predicts the option
would be selected. -/
theorem fill_select_field_single_option_counterexample :
    select_keywords.any (fun w => containsSub ("Yes").pyLower w) = true ∧
    fill_select_field_choice ["Yes"] = none :=
  ⟨by decide, by decide⟩

/-- C3 amended: the keyword scan and the index-1 fallback apply only when the
dropdown has more than one option; a dropdown with at most one option always
fails, even when its only option matches a keyword. With more than one
option, the first keyword-matching option is selected, else index 1. -/
theorem fill_select_field_amended (options : List String) :
    (options.length ≤ 1 → fill_select_field_choice options = none) ∧
    (1 < options.length →
      fill_select_field_choice options =
        match options.find? (fun o =>
            select_keywords.any (fun w => containsSub o.pyLower w)) with
        | some o => some o
        | none => options[1]?) := by
  constructor
  · intro h
    unfold fill_select_field_choice
    rw [if_neg (by omega)]
  · intro h
    unfold fill_select_field_choice
    rw [if_pos h]
    cases hf : options.find? (fun o =>
        select_keywords.any (fun w => containsSub o.pyLower w)) <;> simp [hf, h]

/-- C3 witness: the spec's select-field scenario (keyword match wins over the
index-1 fallback) and the single-option failure case. -/
theorem fill_select_field_amended_witness :
    1 < (["Select...", "No", "Yes, immediately available"] : List String).length ∧
    fill_select_field_choice ["Select...", "No", "Yes, immediately available"] =
      some "Yes, immediately available" ∧
    (["Yes"] : List String).length ≤ 1 ∧
    fill_select_field_choice ["Yes"] = none := by
  refine ⟨by decide, ?_, by decide, (fill_select_field_amended ["Yes"]).1 (by decide)⟩
  have h := (fill_select_field_amended
    ["Select...", "No", "Yes, immediately available"]).2 (by decide)
  rw [h]
  decide

/-- C4: the classifier decision, flattened: a control is filled iff it is
displayed and enabled, carries no non-empty value (regardless of any other
signal), and is required, or of a relevant declared type, or keyword-matched
on its name/id or placeholder. -/
theorem should_fill_additional_field_characterization (f : Element) :
    should_fill_additional_field f =
      (f.displayed && f.enabled && !attrTruthy (f.attr "value") &&
        (attrTruthy (f.attr "required") || attrTruthy (f.attr "aria-required") ||
         (f.attr "type").any (fun t => relevant_types.contains t) ||
         relevant_names.any (fun n =>
           containsSub (pyStr (pyOrS (f.attr "name") (f.attr "id"))).pyLower n) ||
         relevant_names.any (fun n =>
           containsSub (pyStr (f.attr "placeholder")).pyLower n))) := by
  unfold should_fill_additional_field
  rw [attrTruthy_pyOrS]
  cases hd : f.displayed <;> cases he : f.enabled <;>
  cases hv : attrTruthy (f.attr "value") <;>
  cases hr : attrTruthy (f.attr "required") <;>
  cases ha : attrTruthy (f.attr "aria-required") <;>
  cases ht : (f.attr "type").any (fun t => relevant_types.contains t) <;>
  cases hn : relevant_names.any (fun n =>
      containsSub (pyStr (pyOrS (f.attr "name") (f.attr "id"))).pyLower n) <;>
  cases hp : relevant_names.any (fun n =>
      containsSub (pyStr (f.attr "placeholder")).pyLower n) <;>
  simp_all

/-- C5 counterexample: a URL containing `"bamboo"` but not `"bamboohr"`. The
code detects the BambooHR system and returns the tag `"bamboo"`; the claimed
scan over the vendor names `[workday, lever, greenhouse, bamboohr]` finds no
vendor and would return `"unknown"`, and the returned tag `"bamboo"` is
outside the claim's set of possible return values. -/
theorem detect_application_system_bamboo_counterexample :
    detect_application_system
      (pageDriver "https://jobs.bamboo.io/apply" "" [] []) = "bamboo" ∧
    containsSub ("https://jobs.bamboo.io/apply").pyLower "bamboohr" = false ∧
    detect_by_vendor_names claimed_vendor_names "https://jobs.bamboo.io/apply" ""
      (detect_form_patterns_core "" [] []) = "unknown" ∧
    ¬ ("bamboo" ∈ claimed_vendor_names ++ ["generic", "unknown"]) :=
  ⟨by decide, by decide, by decide, by decide⟩

/-- C5 amended: detection is the first-match scan over the vendor SUBSTRINGS
`[workday, lever, greenhouse, bamboo]` (the BambooHR vendor is keyed by the
substring and tag `"bamboo"`, not `"bamboohr"`): URL first, then markup,
then the form heuristic deciding `generic` versus `unknown`; the result is
always one of these six tags and detection never throws. -/
theorem detect_application_system_amended (url src : String)
    (forms inputs : List Element) :
    detect_application_system (pageDriver url src forms inputs) =
      detect_by_vendor_names vendor_url_keys url src
        (detect_form_patterns_core src forms inputs) ∧
    detect_application_system (pageDriver url src forms inputs) ∈
      vendor_url_keys ++ ["generic", "unknown"] := by
  have hmain : detect_application_system (pageDriver url src forms inputs) =
      detect_by_vendor_names vendor_url_keys url src
        (detect_form_patterns_core src forms inputs) := by
    simp only [detect_application_system, pageDriver, detect_by_vendor_names,
      vendor_url_keys, detect_form_patterns, List.find?]
    cases h1 : containsSub url.pyLower "workday" <;> simp only [h1]
    cases h2 : containsSub url.pyLower "lever" <;> simp only [h2]
    cases h3 : containsSub url.pyLower "greenhouse" <;> simp only [h3]
    cases h4 : containsSub url.pyLower "bamboo" <;> simp only [h4]
    cases h5 : containsSub src.pyLower "workday" <;> simp only [h5]
    cases h6 : containsSub src.pyLower "lever" <;> simp only [h6]
    cases h7 : containsSub src.pyLower "greenhouse" <;> simp only [h7]
    cases h8 : containsSub src.pyLower "bamboo" <;> simp only [h8]
    all_goals simp
  refine ⟨hmain, ?_⟩
  rw [hmain]
  unfold detect_by_vendor_names
  cases hf1 : vendor_url_keys.find? (fun v => containsSub url.pyLower v) with
  | some v =>
      exact List.mem_append_left _ (List.mem_of_find?_eq_some hf1)
  | none =>
      cases hf2 : vendor_url_keys.find? (fun v => containsSub src.pyLower v) with
      | some v =>
          exact List.mem_append_left _ (List.mem_of_find?_eq_some hf2)
      | none =>
          cases detect_form_patterns_core src forms inputs <;> simp [vendor_url_keys]

/-- C6: the form heuristic is true iff at least 3 keywords occur, or a
`<form>` element exists, or more than 5 inputs exist; in particular it is
true for 6 blank inputs with zero keywords, and for 3 keywords with zero
form/input elements. -/
theorem detect_form_patterns_characterization :
    (∀ (page_source : String) (forms inputs : List Element),
      detect_form_patterns_core page_source forms inputs = true ↔
        3 ≤ (form_indicators.filter
              (fun ind => containsSub page_source.pyLower ind)).length ∨
        0 < forms.length ∨ 5 < inputs.length) ∧
    detect_form_patterns_core "" [] (List.replicate 6 blankInput) = true ∧
    (form_indicators.filter (fun ind => containsSub ("").pyLower ind)).length = 0 ∧
    detect_form_patterns_core "application apply resume" [] [] = true ∧
    (form_indicators.filter
      (fun ind => containsSub ("application apply resume").pyLower ind)).length = 3 := by
  refine ⟨fun s fs ins => ?_, by decide, by decide, by decide, by decide⟩
  simp [detect_form_patterns_core, or_assoc]

/-- C6 witness: the 6-blank-inputs page through the iff. -/
theorem detect_form_patterns_characterization_witness :
    detect_form_patterns_core "" [] (List.replicate 6 blankInput) = true :=
  (detect_form_patterns_characterization.1 "" [] (List.replicate 6 blankInput)).mpr
    (by right; right; decide)

/-- C7: whenever the lower-cased `name + " " + placeholder` text contains
`"experience"` or `"years"`, the additional-field resolver returns `"5"`
through the keyword path, regardless of the declared input type. -/
theorem get_additional_field_value_keyword_path (field_type : Option String)
    (field_name field_placeholder : String)
    (h : containsSub (field_name ++ " " ++ field_placeholder).pyLower "experience" = true ∨
         containsSub (field_name ++ " " ++ field_placeholder).pyLower "years" = true) :
    get_additional_field_value field_type field_name field_placeholder = some "5" := by
  unfold get_additional_field_value
  rcases h with h | h <;> simp [h]

/-- C7 witness: the control named `"years_of_experience"` with empty
placeholder and declared type `"text"` resolves to `"5"`, not to the
`"text"` type default. -/
theorem get_additional_field_value_keyword_path_witness :
    (containsSub ("years_of_experience" ++ " " ++ "").pyLower "experience" = true ∨
     containsSub ("years_of_experience" ++ " " ++ "").pyLower "years" = true) ∧
    get_additional_field_value (some "text") "years_of_experience" "" = some "5" :=
  ⟨Or.inl (by decide),
   get_additional_field_value_keyword_path (some "text") "years_of_experience" ""
     (Or.inl (by decide))⟩

/-- C8: no environment error escapes a public operation. A raised URL or
page read degrades detection to `"unknown"` (and the form heuristic to
`false`), a raised post-submit page read degrades outcome classification and
submission to failure, a raised artifact `send_keys` degrades the upload to
failure, and raised selector queries degrade field location to an empty
list — each operation still returns its boolean / outcome / mapping value. -/
theorem no_exception_crosses_boundary (d : Driver) (e : DomError)
    (f : Element) (rest subs : List Element) :
    (d.current_url = Except.error e → detect_application_system d = "unknown") ∧
    (d.page_source = Except.error e →
      detect_application_system d = "unknown" ∧
      detect_form_patterns d = false ∧
      check_submission_success d = false ∧
      submit_form subs d = false) ∧
    (f.sendKeys = Except.error e → handle_resume_upload (f :: rest) = false) ∧
    ((∀ s, d.findElements s = Except.error e) →
      ∀ selectors, find_fields_by_selectors d selectors = []) := by
  refine ⟨fun h => ?_, fun h => ⟨?_, ?_, ?_, ?_⟩, fun h => ?_, fun h selectors => ?_⟩
  · simp [detect_application_system, h]
  · cases hc : d.current_url <;> simp [detect_application_system, h, hc]
  · simp [detect_form_patterns, h]
  · simp [check_submission_success, h]
  · induction subs with
    | nil => rfl
    | cons b bs ih =>
        unfold submit_form
        cases hb : b.enabled <;> simp [hb, ih]
        cases hk : b.click <;> simp [hk, ih, check_submission_success, h]
  · simp [handle_resume_upload, h]
  · induction selectors with
    | nil => rfl
    | cons s ss ih => simp [find_fields_by_selectors, h s, ih]

/-- C8 witness: the all-raising driver and a raising upload control. -/
theorem no_exception_crosses_boundary_witness :
    detect_application_system errorDriver = "unknown" ∧
    check_submission_success errorDriver = false ∧
    handle_resume_upload [{ blankInput with sendKeys := Except.error ⟨"boom"⟩ }] = false ∧
    find_fields_by_selectors errorDriver ["input"] = [] := by
  have h := no_exception_crosses_boundary errorDriver ⟨"boom"⟩
    { blankInput with sendKeys := Except.error ⟨"boom"⟩ } [] []
  exact ⟨h.1 rfl, (h.2.1 rfl).2.2.1, h.2.2.1 rfl, h.2.2.2 (fun s => rfl) ["input"]⟩

/-- C9: a system tag absent from the vendor signature table (such as
`"unknown"`) is mapped exactly like `"generic"`: the generic selector lists
are used rather than failing or returning an empty mapping. -/
theorem map_form_fields_generic_fallback (system_type : String) (d : Driver)
    (h : (load_form_patterns.find? (fun p => p.1 == system_type)).isNone = true) :
    map_form_fields system_type d = map_form_fields "generic" d := by
  unfold map_form_fields
  rw [Option.isNone_iff_eq_none] at h
  simp [h]

/-- C9 witness: the tag `"unknown"` is not in the table and maps like
`"generic"`. -/
theorem map_form_fields_generic_fallback_witness :
    (load_form_patterns.find? (fun p => p.1 == "unknown")).isNone = true ∧
    map_form_fields "unknown" (pageDriver "" "" [] []) =
      map_form_fields "generic" (pageDriver "" "" [] []) :=
  ⟨by decide, map_form_fields_generic_fallback "unknown" (pageDriver "" "" [] []) (by decide)⟩

/-- C10: if reading the post-submit page raises, outcome classification
returns failure, not the optimistic success default. -/
theorem check_submission_success_unreadable_page (e : DomError) (d : Driver)
    (h : d.page_source = Except.error e) :
    check_submission_success d = false := by
  simp [check_submission_success, h]

/-- C10 witness: the all-raising driver classifies as failure. -/
theorem check_submission_success_unreadable_page_witness :
    errorDriver.page_source = Except.error ⟨"boom"⟩ ∧
    check_submission_success errorDriver = false :=
  ⟨rfl, check_submission_success_unreadable_page ⟨"boom"⟩ errorDriver rfl⟩
